import Mathlib

/-!
Verification of the knowledge-base query/session/ingestion lifecycle of the
just-in-time knowledge base sample (Lambda handlers under
`src/infrastructure/lambda/`).  Each Python handler is shallowly embedded as a
pure Lean function; external collaborators (DynamoDB, the Bedrock agent
runtime) are passed in as oracles, and the side effects a handler would issue
(table puts, document submissions, document deletions) are returned as
explicit lists so theorems can quantify over them.
-/

/-- Whether the first character list is a prefix of the second. -/
def charsPrefix : List Char → List Char → Bool
  | [], _ => true
  | _ :: _, [] => false
  | a :: as, b :: bs => a == b && charsPrefix as bs

/-- Whether `pat` occurs as a contiguous run inside the character list. -/
def charsContain (pat : List Char) : List Char → Bool
  | [] => charsPrefix pat []
  | c :: cs => charsPrefix pat (c :: cs) || charsContain pat cs

/-- Python's `pat in s` substring test. -/
def strContains (s pat : String) : Bool :=
  charsContain pat.data s.data

/-- Whether a leading run of whitespace begins the list; drop it. -/
def dropLeadingWhitespace : List Char → List Char
  | [] => []
  | c :: cs => if c.isWhitespace then dropLeadingWhitespace cs else c :: cs

/-- Python's `str.strip()`: remove whitespace from both ends. -/
def pyStrip (s : String) : String :=
  ⟨(dropLeadingWhitespace ((dropLeadingWhitespace s.data).reverse)).reverse⟩

/-- A botocore `ClientError`: the `Error.Code` and `Error.Message` fields of
the service response. -/
structure ClientErr where
  code : String
  message : String
deriving DecidableEq, Repr

/-- `dict.get(k, d)` on a key/value list. -/
def lookupD (kvs : List (String × String)) (k d : String) : String :=
  match kvs.find? (fun kv => kv.1 == k) with
  | some kv => kv.2
  | none => d

/-- One retrieved reference inside a citation of a `retrieve_and_generate`
response: `content.text` and `metadata`. -/
structure RetrievedReference where
  contentText : String
  metadata : List (String × String)
deriving DecidableEq, Repr

/-- One citation of a `retrieve_and_generate` response. -/
structure Citation where
  retrievedReferences : List RetrievedReference
deriving DecidableEq, Repr

/-- A successful `retrieve_and_generate` response: `sessionId`,
`output.text` and `citations`. -/
structure RAGResponse where
  sessionId : String
  outputText : String
  citations : List Citation
deriving DecidableEq, Repr

/-- One conjunct of the vector-search filter built by `handle_query`:
either an `equals` condition or an `in` (membership) condition. -/
inductive FilterCond where
  | eq (key value : String)
  | mem (key : String) (values : List String)
deriving DecidableEq, Repr

/-- The structured retrieval filter: an `andAll` of conditions. -/
structure FilterExpr where
  andAll : List FilterCond
deriving DecidableEq, Repr

/-- The filter expression `handle_query` builds: exact match on `tenantId`
and `projectId`, and membership of `fileId` in the resolved file-id list. -/
def mkFilterExpression (tenantId projectId : String) (fileIds : List String) : FilterExpr :=
  ⟨[.eq "tenantId" tenantId, .eq "projectId" projectId, .mem "fileId" fileIds]⟩

/-- The parameter record passed to `bedrock_agent_runtime.retrieve_and_generate`:
input text, knowledge base id, model ARN, result limit, vector-search filter,
and the optional `sessionId` key. -/
structure RetrieveParams where
  inputText : String
  knowledgeBaseId : String
  modelArn : String
  numberOfResults : Nat
  filter : FilterExpr
  sessionId : Option String
deriving DecidableEq, Repr

/-- The invalid-session test of `perform_retrieve_and_generate`: the error
code is `ValidationException` and the message contains both
`is not valid` and `Session with Id`. -/
def isInvalidSessionError (e : ClientErr) : Bool :=
  e.code == "ValidationException" &&
    strContains e.message "is not valid" &&
    strContains e.message "Session with Id"

/-- `perform_retrieve_and_generate` from `QueryKnowledgeBase.py`: issue the
call; on a `ClientError` matching the invalid-session test, if a `sessionId`
was supplied, drop it and retry once, reporting the session change; any other
failure (including a failure of the retry, or an invalid-session error with
no `sessionId` supplied) propagates.  The second component is the trace of
parameter records actually sent to the service. -/
def perform_retrieve_and_generate (svc : RetrieveParams → Except ClientErr RAGResponse)
    (p : RetrieveParams) : Except ClientErr (RAGResponse × Bool) × List RetrieveParams :=
  match svc p with
  | .ok r => (.ok (r, false), [p])
  | .error e =>
    if isInvalidSessionError e then
      match p.sessionId with
      | some _ =>
        let p2 : RetrieveParams := { p with sessionId := none }
        match svc p2 with
        | .ok r => (.ok (r, true), [p, p2])
        | .error e2 => (.error e2, [p, p2])
      | none => (.error e, [p])
    else
      (.error e, [p])

/-- A source extracted from a citation reference: `fileId` (from metadata,
empty-string default), the reference's content text, and the metadata. -/
structure Source where
  fileId : String
  content : String
  metadata : List (String × String)
deriving DecidableEq, Repr

/-- The source-extraction loop of `handle_query`: one `Source` per retrieved
reference of each citation. -/
def extract_sources (resp : RAGResponse) : List Source :=
  resp.citations.flatMap (fun c =>
    c.retrievedReferences.map (fun ref =>
      { fileId := lookupD ref.metadata "fileId" "",
        content := ref.contentText,
        metadata := ref.metadata }))

/-- A chat history item as written by `save_chat_message`. -/
structure ChatMessage where
  id : String
  sessionId : String
  tenantId : String
  userId : String
  projectId : String
  type : String
  content : String
  timestamp : Nat
  sources : Option (List Source)
deriving DecidableEq, Repr

/-- `save_chat_message`: build the item; the `sources` attribute is added
only when a non-empty list is provided (Python truthiness of `if sources:`).
The generated uuid is passed in as `msgId`. -/
def save_chat_message (msgId sessionId userId tenantId projectId msgType content : String)
    (timestamp : Nat) (sources : Option (List Source)) : ChatMessage :=
  { id := msgId, sessionId := sessionId, tenantId := tenantId, userId := userId,
    projectId := projectId, type := msgType, content := content, timestamp := timestamp,
    sources :=
      match sources with
      | some l => if l.isEmpty then none else some l
      | none => none }

/-- `update_chat_history_session_id`: retrieve the full (tenant, user)
history, filter to the entries whose `sessionId` equals the old id, and
re-put each of them with the new id (a copy with only `sessionId` changed).
The result is the list of items written by the batch writer. -/
def update_chat_history_session_id (history : List ChatMessage)
    (oldSessionId newSessionId : String) : List ChatMessage :=
  (history.filter (fun m => m.sessionId == oldSessionId)).map
    (fun m => { m with sessionId := newSessionId })

/-- The parameter record `handle_query` assembles before calling
`perform_retrieve_and_generate`: the query text, the configured knowledge
base id, the hard-coded model ARN and result limit, the scoping filter built
from the resolved file ids, and the optional session id. -/
def mkQueryParams (queryText kbId tenantId projectId : String)
    (fileIds : List String) (sessionOpt : Option String) : RetrieveParams :=
  { inputText := queryText,
    knowledgeBaseId := kbId,
    modelArn := "arn:aws:bedrock:us-east-1::foundation-model/amazon.nova-pro-v1:0",
    numberOfResults := 5,
    filter := mkFilterExpression tenantId projectId fileIds,
    sessionId := sessionOpt }

/-- Everything observable about one `handle_query` invocation: the HTTP
status of the response, the trace of `retrieve_and_generate` calls issued,
the chat-history items written for this turn, the re-keyed history items
written by `update_chat_history_session_id`, and the raw service response
echoed in a 200 body. -/
structure QueryOutcome where
  status : Nat
  calls : List RetrieveParams
  chatPuts : List ChatMessage
  rekeyPuts : List ChatMessage
  resp : Option RAGResponse
deriving Repr

/-- `handle_query` from `QueryKnowledgeBase.py`.  Inputs that the Lambda
reads from the event or environment are parameters; the empty string models
a missing/falsy value (`body.get` returning `None`, unset environment
variable).  `svc` is the Bedrock runtime, `getFileIds` the project-files
lookup of `common_utils.get_file_ids`, `history` the (tenant, user) chat
partition as returned by `get_chat_history_by_tenant_user`, and
`uidUser`/`uidAi` the uuids generated for the two saved messages. -/
def handle_query (svc : RetrieveParams → Except ClientErr RAGResponse)
    (getFileIds : String → String → List String)
    (history : List ChatMessage) (now : Nat) (uidUser uidAi : String)
    (userId tenantId queryText projectId sessionIdRaw kbId : String) : QueryOutcome :=
  if queryText = "" then ⟨400, [], [], [], none⟩
  else if kbId = "" then ⟨500, [], [], [], none⟩
  else if projectId = "" then ⟨400, [], [], [], none⟩
  else
    let fileIds := getFileIds tenantId projectId
    if fileIds.isEmpty then ⟨404, [], [], [], none⟩
    else
      let sessionOpt := if pyStrip sessionIdRaw ≠ "" then some sessionIdRaw else none
      let params := mkQueryParams queryText kbId tenantId projectId fileIds sessionOpt
      let pr := perform_retrieve_and_generate svc params
      match pr.1 with
      | .error _ => ⟨500, pr.2, [], [], none⟩
      | .ok (resp, sessionChanged) =>
        let rekeys :=
          if sessionChanged ∧ sessionIdRaw ≠ "" then
            update_chat_history_session_id history sessionIdRaw resp.sessionId
          else []
        let sources := extract_sources resp
        let userMsg := save_chat_message uidUser resp.sessionId userId tenantId projectId
          "user" queryText now none
        let aiMsg := save_chat_message uidAi resp.sessionId userId tenantId projectId
          "ai" resp.outputText (now + 1) (some sources)
        ⟨200, pr.2, [userMsg, aiMsg], rekeys, some resp⟩

/-- A tenant record of the `TENANTS` configuration: its `Id` and its
`FilesTTLHours` retention (after Python's `int(...)` coercion). -/
structure TenantCfg where
  tenantCfgId : String
  filesTTLHours : Nat
deriving DecidableEq, Repr

/-- `find_tenant` from `CheckKnowledgeBaseStatus.py`: the first tenant in the
configuration whose `Id` equals the requested tenant id, if any. -/
def find_tenant (tenantId : String) (tenants : List TenantCfg) : Option TenantCfg :=
  tenants.find? (fun t => t.tenantCfgId == tenantId)

/-- A registered project file as read from the project-files table:
its `id`, object key and bucket. -/
structure FileInfo where
  fileInfoId : String
  s3Key : String
  bucket : String
deriving DecidableEq, Repr

/-- A put into the knowledge-base files table performed by `ingest_files`. -/
structure FileRecordPut where
  recId : String
  userId : String
  tenantId : String
  projectId : String
  documentStatus : String
  createdAt : Nat
  ttl : Nat
deriving DecidableEq, Repr

/-- One `ingest_knowledge_base_documents` submission: the custom document
identifier, the object-store URI, and the inline metadata attributes. -/
structure DocSubmission where
  docId : String
  s3Uri : String
  inlineAttributes : List (String × String)
deriving DecidableEq, Repr

/-- The FileRecord `ingest_files` writes for one file. -/
def mkFileRecordPut (fileId userId tenantId projectId : String)
    (now ttl : Nat) : FileRecordPut :=
  { recId := fileId, userId := userId, tenantId := tenantId, projectId := projectId,
    documentStatus := "ready", createdAt := now, ttl := ttl }

/-- The document submission `ingest_files` issues for one file: uri
`s3://bucket/key` and the four scoping tags as inline attributes. -/
def mkDocSubmission (f : FileInfo) (userId tenantId projectId : String) : DocSubmission :=
  { docId := f.fileInfoId,
    s3Uri := "s3://" ++ f.bucket ++ "/" ++ f.s3Key,
    inlineAttributes :=
      [("userId", userId), ("tenantId", tenantId),
       ("projectId", projectId), ("fileId", f.fileInfoId)] }

/-- The observable effects of one `ingest_files` run: the FileRecord puts,
the document submissions, and whether the run raised before the loop. -/
structure IngestResult where
  records : List FileRecordPut
  submissions : List DocSubmission
  outcome : Except String Unit
deriving Repr

/-- `ingest_files` from `CheckKnowledgeBaseStatus.py`.  `cfg` is the outcome
of `json.loads(os.environ.get('TENANTS'))['Tenants']` (an exception when the
variable is absent or unparseable); the tenant lookup and TTL computation
happen before the per-file loop, so any configuration failure raises before
a single record is written.  Wall-clock time is the fixed `now` of the
invocation.  With a resolved configuration the loop writes one FileRecord
and issues one document submission per file. -/
def ingest_files (cfg : Except String (List TenantCfg)) (now : Nat)
    (userId tenantId projectId : String) (files : List FileInfo) : IngestResult :=
  match cfg with
  | .error e => ⟨[], [], .error e⟩
  | .ok tenants =>
    match find_tenant tenantId tenants with
    | none => ⟨[], [], .error "tenant not found in TENANTS"⟩
    | some tenant =>
      let ttl := now + tenant.filesTTLHours * 3600
      ⟨files.map (fun f => mkFileRecordPut f.fileInfoId userId tenantId projectId now ttl),
       files.map (fun f => mkDocSubmission f userId tenantId projectId),
       .ok ()⟩

/-- The observable outcome of the `CheckKnowledgeBaseStatus` handler: the
HTTP status plus every store mutation issued. -/
structure CheckOutcome where
  status : Nat
  records : List FileRecordPut
  submissions : List DocSubmission
deriving Repr

/-- The `handler` of `CheckKnowledgeBaseStatus.py`: validate configuration
and inputs, resolve the project's files (`projectFiles` is the result of
`get_project_files`, `none` when the lookup failed or the table is not
configured), reject an empty file set with a 400 before ingesting, and
otherwise run `ingest_files`, mapping a raised ingestion error to a 500. -/
def check_kb_status_handler (kbId userId tenantId projectId : String)
    (projectFiles : Option (List FileInfo))
    (cfg : Except String (List TenantCfg)) (now : Nat) : CheckOutcome :=
  if kbId = "" then ⟨500, [], []⟩
  else if userId = "" then ⟨400, [], []⟩
  else if projectId = "" then ⟨400, [], []⟩
  else
    match projectFiles with
    | none => ⟨400, [], []⟩
    | some files =>
      if files.isEmpty then ⟨400, [], []⟩
      else
        let r := ingest_files cfg now userId tenantId projectId files
        match r.outcome with
        | .ok _ => ⟨200, r.records, r.submissions⟩
        | .error _ => ⟨500, r.records, r.submissions⟩

/-- One DynamoDB stream record as read by `CleanupKnowledgeBase.py`:
the event name, the `userIdentity` markers, the record keys, and the
`projectId` of the old image (informational only). -/
structure StreamRecord where
  eventName : String
  userIdentityType : Option String
  userIdentityPrincipal : Option String
  keyId : Option String
  keyTenantId : Option String
  oldImageProjectId : Option String
deriving DecidableEq, Repr

/-- Python truthiness of `keys.get(...).get('S')`: an absent key yields
`None` and the falsy values are `None` and the empty string; both collapse
to `""` here. -/
def optStr (o : Option String) : String := o.getD ""

/-- A stream record the cleanup handler acts on: a `REMOVE` event whose
`userIdentity` marks a service-initiated (TTL) removal by
`dynamodb.amazonaws.com`. -/
def isTTLRemoval (r : StreamRecord) : Bool :=
  r.eventName == "REMOVE" &&
    r.userIdentityType == some "Service" &&
    r.userIdentityPrincipal == some "dynamodb.amazonaws.com"

/-- A record for which the cleanup handler issues a deletion: a TTL removal
carrying a truthy file id and tenant id in its keys. -/
def qualifyingRemoval (r : StreamRecord) : Bool :=
  isTTLRemoval r && !(optStr r.keyId == "") && !(optStr r.keyTenantId == "")

/-- The loop body of the cleanup handler for one stream record, threading
the accumulated (deletions attempted, processed count, error count).
`delOk` tells whether `delete_knowledge_base_documents` succeeds for a
given file id; a failed deletion is counted and the loop continues. -/
def cleanupStep (delOk : String → Bool) (acc : List String × Nat × Nat)
    (r : StreamRecord) : List String × Nat × Nat :=
  if r.eventName == "REMOVE" then
    if r.userIdentityType == some "Service" &&
        r.userIdentityPrincipal == some "dynamodb.amazonaws.com" then
      let fileId := optStr r.keyId
      let tenantId := optStr r.keyTenantId
      if fileId == "" then acc
      else if tenantId == "" then acc
      else
        match acc with
        | (ds, p, e) =>
          if delOk fileId then (ds ++ [fileId], p + 1, e)
          else (ds ++ [fileId], p, e + 1)
    else acc
  else acc

/-- The observable outcome of one `CleanupKnowledgeBase.lambda_handler`
invocation: the returned status code, the file ids for which a knowledge
base document deletion was attempted (in order), and the processed/error
counts reported. -/
structure CleanupOutcome where
  status : Nat
  deletions : List String
  processed : Nat
  errored : Nat
deriving DecidableEq, Repr

/-- `lambda_handler` from `CleanupKnowledgeBase.py`: configuration guards,
an early normal return on an empty record set, then the per-record loop;
the handler always returns 200 once configured, reporting aggregate counts. -/
def cleanup_handler (kbId dsId tableName : String) (delOk : String → Bool)
    (records : List StreamRecord) : CleanupOutcome :=
  if kbId = "" then ⟨500, [], 0, 0⟩
  else if dsId = "" then ⟨500, [], 0, 0⟩
  else if tableName = "" then ⟨500, [], 0, 0⟩
  else if records.isEmpty then ⟨200, [], 0, 0⟩
  else
    match records.foldl (cleanupStep delOk) ([], 0, 0) with
    | (ds, p, e) => ⟨200, ds, p, e⟩

/-- The while-loop of `get_chat_history_by_tenant_user`: the store hands
back one page per continuation token; the loop extends the accumulated list
with each page until no `LastEvaluatedKey` remains. -/
def drainPages : List (List ChatMessage) → List ChatMessage
  | [] => []
  | page :: rest => page ++ drainPages rest

/-- `get_chat_history_by_tenant_user` from `QueryKnowledgeBase.py`:
drain every page of the paginated (tenant, user) query and merge them;
any exception from the store is swallowed and yields the empty list
(`queryFails` models the store raising). -/
def get_chat_history_by_tenant_user (queryFails : Bool)
    (pages : List (List ChatMessage)) : List ChatMessage :=
  if queryFails then [] else drainPages pages

/-- `batch_delete_items` from `common_utils.py`, on the chat-history table:
delete each item by its `(tenantId, id)` key through the batch writer;
`delOk` models a key's deletion raising, which aborts the batch and returns
`false`.  The second component is the list of keys whose deletion was
submitted. -/
def batch_delete_items (delOk : String → String → Bool) :
    List ChatMessage → Bool × List (String × String)
  | [] => (true, [])
  | m :: rest =>
    if delOk m.tenantId m.id then
      match batch_delete_items delOk rest with
      | (b, ds) => (b, (m.tenantId, m.id) :: ds)
    else (false, [(m.tenantId, m.id)])

/-- `delete_chat_session` from `QueryKnowledgeBase.py`: retrieve the full
(tenant, user) history, then batch-delete it, returning the boolean used to
gate the caller-visible confirmation. -/
def delete_chat_session (queryFails : Bool) (pages : List (List ChatMessage))
    (delOk : String → String → Bool) : Bool × List (String × String) :=
  let messages := get_chat_history_by_tenant_user queryFails pages
  batch_delete_items delOk messages

/-- The observable outcome of `handle_delete_session`: status, response
message, and the delete operations submitted to the store. -/
structure DeleteSessionOutcome where
  status : Nat
  message : String
  deletions : List (String × String)
deriving DecidableEq, Repr

/-- `handle_delete_session` from `QueryKnowledgeBase.py`: a missing project
id is a 400; a `false` from `delete_chat_session` maps to a 404; `true`
yields the 200 deleted-successfully confirmation. -/
def handle_delete_session (projectId : String) (queryFails : Bool)
    (pages : List (List ChatMessage)) (delOk : String → String → Bool) :
    DeleteSessionOutcome :=
  if projectId = "" then ⟨400, "Project ID is required", []⟩
  else
    match delete_chat_session queryFails pages delOk with
    | (true, ds) =>
      ⟨200, "Project " ++ projectId ++ " chat history deleted successfully", ds⟩
    | (false, ds) =>
      ⟨404, "Project chat history not found or not authorized", ds⟩

/-- Every parameter record sent by `perform_retrieve_and_generate` carries
the filter of the supplied parameters: the retry only removes `sessionId`. -/
theorem perform_calls_keep_filter (svc : RetrieveParams → Except ClientErr RAGResponse)
    (p : RetrieveParams) :
    ∀ q ∈ (perform_retrieve_and_generate svc p).2, q.filter = p.filter := by
  intro q hq
  unfold perform_retrieve_and_generate at hq
  cases h : svc p with
  | ok r => simp [h] at hq; simp [hq]
  | error e =>
    rw [h] at hq
    by_cases hinv : isInvalidSessionError e
    · cases hs : p.sessionId with
      | some s =>
        rw [hs] at hq
        cases h2 : svc { p with sessionId := none } with
        | ok r =>
          simp [hinv, h2] at hq
          rcases hq with hq | hq <;> simp [hq]
        | error e2 =>
          simp [hinv, h2] at hq
          rcases hq with hq | hq <;> simp [hq]
      | none =>
        rw [hs] at hq
        simp [hinv] at hq
        simp [hq]
    · simp [hinv] at hq
      simp [hq]

/-- C1: every `retrieve_and_generate` call issued by `handle_query` carries
the scoping filter requiring `tenantId == T`, `projectId == P` and `fileId`
membership in the resolved file-id set — there is no path to the service
without it — and when the resolved file-id set of a well-formed request is
empty, `handle_query` returns a 404 having issued no service call. -/
theorem C1_query_scoping_filter
    (svc : RetrieveParams → Except ClientErr RAGResponse)
    (getFileIds : String → String → List String)
    (history : List ChatMessage) (now : Nat) (uidUser uidAi : String)
    (userId tenantId queryText projectId sessionIdRaw kbId : String) :
    (∀ q ∈ (handle_query svc getFileIds history now uidUser uidAi
        userId tenantId queryText projectId sessionIdRaw kbId).calls,
      q.filter = mkFilterExpression tenantId projectId (getFileIds tenantId projectId)) ∧
    (queryText ≠ "" → kbId ≠ "" → projectId ≠ "" →
      getFileIds tenantId projectId = [] →
      (handle_query svc getFileIds history now uidUser uidAi
        userId tenantId queryText projectId sessionIdRaw kbId).status = 404 ∧
      (handle_query svc getFileIds history now uidUser uidAi
        userId tenantId queryText projectId sessionIdRaw kbId).calls = []) := by
  constructor
  · intro q hq
    unfold handle_query at hq
    by_cases h1 : queryText = ""
    · simp [h1] at hq
    by_cases h2 : kbId = ""
    · simp [h1, h2] at hq
    by_cases h3 : projectId = ""
    · simp [h1, h2, h3] at hq
    by_cases h4 : (getFileIds tenantId projectId).isEmpty
    · simp [h1, h2, h3, h4] at hq
    · simp only [h1, h2, h3, h4, if_neg, if_pos, if_false, if_true,
        Bool.false_eq_true, not_false_eq_true] at hq
      cases hp : (perform_retrieve_and_generate svc
          (mkQueryParams queryText kbId tenantId projectId
            (getFileIds tenantId projectId)
            (if pyStrip sessionIdRaw ≠ "" then some sessionIdRaw else none))).1 with
      | error e =>
        rw [hp] at hq
        simp only [QueryOutcome.calls] at hq
        have := perform_calls_keep_filter svc
          (mkQueryParams queryText kbId tenantId projectId
            (getFileIds tenantId projectId)
            (if pyStrip sessionIdRaw ≠ "" then some sessionIdRaw else none)) q hq
        simpa [mkQueryParams] using this
      | ok v =>
        obtain ⟨resp, sc⟩ := v
        rw [hp] at hq
        simp only [QueryOutcome.calls] at hq
        have := perform_calls_keep_filter svc
          (mkQueryParams queryText kbId tenantId projectId
            (getFileIds tenantId projectId)
            (if pyStrip sessionIdRaw ≠ "" then some sessionIdRaw else none)) q hq
        simpa [mkQueryParams] using this
  · intro h1 h2 h3 h4
    unfold handle_query
    simp [h1, h2, h3, h4]

/-- C2: if the first `retrieve_and_generate` attempt fails with a
validation error naming an unrecognized session id and a `sessionId` was
supplied, the executor retries exactly once with `sessionId` removed (the
call trace is precisely the original parameters followed by the parameters
without `sessionId`), and the outcome is that single retry's outcome — a
retry failure propagates unrecovered; any other failure class, including an
invalid-session error with no `sessionId` supplied, propagates after the
single original call. -/
theorem C2_session_retry_once (svc : RetrieveParams → Except ClientErr RAGResponse)
    (p : RetrieveParams) :
    (∀ e s, svc p = .error e → isInvalidSessionError e = true → p.sessionId = some s →
      (perform_retrieve_and_generate svc p).2 = [p, { p with sessionId := none }] ∧
      (perform_retrieve_and_generate svc p).1 =
        (svc { p with sessionId := none }).map (fun r => (r, true))) ∧
    (∀ e, svc p = .error e → isInvalidSessionError e = false →
      perform_retrieve_and_generate svc p = (.error e, [p])) ∧
    (∀ e, svc p = .error e → p.sessionId = none →
      perform_retrieve_and_generate svc p = (.error e, [p])) := by
  refine ⟨?_, ?_, ?_⟩
  · intro e s hsvc hinv hsid
    cases h2 : svc { p with sessionId := none } with
    | ok r =>
      constructor <;>
        simp [perform_retrieve_and_generate, hsvc, hinv, hsid, h2, Except.map]
    | error e2 =>
      constructor <;>
        simp [perform_retrieve_and_generate, hsvc, hinv, hsid, h2, Except.map]
  · intro e hsvc hinv
    simp [perform_retrieve_and_generate, hsvc, hinv]
  · intro e hsvc hsid
    cases hinv : isInvalidSessionError e with
    | true => simp [perform_retrieve_and_generate, hsvc, hinv, hsid]
    | false => simp [perform_retrieve_and_generate, hsvc, hinv]

/-- A concrete invalid-session validation error, shaped like the service's
message. -/
def demoErr : ClientErr :=
  ⟨"ValidationException", "Session with Id abc is not valid. Please check and try again."⟩

/-- A concrete successful response carrying a fresh session id and one
citation. -/
def demoResp : RAGResponse :=
  { sessionId := "s-new", outputText := "the answer",
    citations := [⟨[{ contentText := "chunk", metadata := [("fileId", "f1")] }]⟩] }

/-- A concrete service oracle that rejects any supplied session id with the
invalid-session error and succeeds once the session id is removed. -/
def demoSvc : RetrieveParams → Except ClientErr RAGResponse :=
  fun p => match p.sessionId with
    | some _ => .error demoErr
    | none => .ok demoResp

/-- Concrete parameters with a supplied session id. -/
def demoParams : RetrieveParams :=
  mkQueryParams "what is it" "kb1" "t1" "p1" ["f1", "f2"] (some "abc")

/-- A project-files oracle that resolves no files. -/
def demoNoFiles : String → String → List String := fun _ _ => []

/-- Witness for C1 at a concrete empty-project input: the well-formed query
is rejected with a 404 and no service call. -/
theorem C1_query_scoping_filter_witness :
    "what is it" ≠ "" ∧ "kb1" ≠ "" ∧ "p1" ≠ "" ∧ demoNoFiles "t1" "p1" = [] ∧
    (handle_query demoSvc demoNoFiles [] 7 "u-a" "u-b"
      "user1" "t1" "what is it" "p1" "" "kb1").status = 404 ∧
    (handle_query demoSvc demoNoFiles [] 7 "u-a" "u-b"
      "user1" "t1" "what is it" "p1" "" "kb1").calls = [] := by
  refine ⟨by decide, by decide, by decide, rfl, ?_⟩
  exact (C1_query_scoping_filter demoSvc demoNoFiles [] 7 "u-a" "u-b"
    "user1" "t1" "what is it" "p1" "" "kb1").2 (by decide) (by decide) (by decide) rfl

/-- Witness for C2 at a concrete input: the invalid-session failure with a
supplied session id leads to exactly one retry without the session id. -/
theorem C2_session_retry_once_witness :
    demoSvc demoParams = .error demoErr ∧
    isInvalidSessionError demoErr = true ∧
    demoParams.sessionId = some "abc" ∧
    (perform_retrieve_and_generate demoSvc demoParams).2 =
      [demoParams, { demoParams with sessionId := none }] ∧
    (perform_retrieve_and_generate demoSvc demoParams).1 =
      (demoSvc { demoParams with sessionId := none }).map (fun r => (r, true)) := by
  refine ⟨rfl, by decide, rfl, ?_⟩
  exact (C2_session_retry_once demoSvc demoParams).1 demoErr "abc" rfl (by decide) rfl

/-- Characterisation of the re-key writes: every write is an old-session
entry with only its `sessionId` replaced; every old-session entry is
rewritten; with pairwise-distinct item ids no write targets an entry of a
different session. -/
theorem update_rekey_writes (history : List ChatMessage) (oldSid newSid : String) :
    (∀ w ∈ update_chat_history_session_id history oldSid newSid,
        w.sessionId = newSid ∧
        ∃ m ∈ history, m.sessionId = oldSid ∧ w = { m with sessionId := newSid }) ∧
    (∀ m ∈ history, m.sessionId = oldSid →
        { m with sessionId := newSid } ∈ update_chat_history_session_id history oldSid newSid) ∧
    ((history.map ChatMessage.id).Nodup →
      ∀ m ∈ history, m.sessionId ≠ oldSid →
        ∀ w ∈ update_chat_history_session_id history oldSid newSid, w.id ≠ m.id) := by
  refine ⟨?_, ?_, ?_⟩
  · intro w hw
    simp only [update_chat_history_session_id, List.mem_map, List.mem_filter,
      beq_iff_eq] at hw
    obtain ⟨m, ⟨hm, hsid⟩, rfl⟩ := hw
    exact ⟨rfl, m, hm, hsid, rfl⟩
  · intro m hm hsid
    simp only [update_chat_history_session_id, List.mem_map, List.mem_filter,
      beq_iff_eq]
    exact ⟨m, ⟨hm, hsid⟩, rfl⟩
  · intro hnodup m hm hne w hw
    simp only [update_chat_history_session_id, List.mem_map, List.mem_filter,
      beq_iff_eq] at hw
    obtain ⟨m2, ⟨hm2, hsid2⟩, rfl⟩ := hw
    intro hid
    have : m2 = m := List.inj_on_of_nodup_map hnodup hm2 hm hid
    exact hne (this ▸ hsid2)

/-- On a recovery run — first call fails with the invalid-session error, a
session id was supplied, and the retry succeeds — the executor returns the
retry's response marked as a session change, having called the service
exactly with the original parameters and then the parameters without
`sessionId`. -/
theorem perform_recovered (svc : RetrieveParams → Except ClientErr RAGResponse)
    (p : RetrieveParams) (e : ClientErr) (resp : RAGResponse) (s : String)
    (hsid : p.sessionId = some s)
    (hfail : svc p = .error e) (hinv : isInvalidSessionError e = true)
    (hok : svc { p with sessionId := none } = .ok resp) :
    perform_retrieve_and_generate svc p =
      (.ok (resp, true), [p, { p with sessionId := none }]) := by
  unfold perform_retrieve_and_generate
  rw [hfail]
  simp [hinv, hsid, hok]

/-- C3: on a recovered query — the first attempt with the supplied session
id fails with the invalid-session validation error and the retry without a
session id succeeds — `handle_query` re-keys exactly the prior (tenant,
user) history entries filed under the old session id to the response's new
session id, each rewritten entry preserving every field other than
`sessionId`, and (given distinct item ids) touching no entry of a different
session. -/
theorem C3_rekey_on_recovery
    (svc : RetrieveParams → Except ClientErr RAGResponse)
    (getFileIds : String → String → List String)
    (history : List ChatMessage) (now : Nat) (uidUser uidAi : String)
    (userId tenantId queryText projectId sessionIdRaw kbId : String)
    (resp : RAGResponse) (e : ClientErr)
    (h1 : queryText ≠ "") (h2 : kbId ≠ "") (h3 : projectId ≠ "")
    (h4 : ¬(getFileIds tenantId projectId).isEmpty = true)
    (h5 : pyStrip sessionIdRaw ≠ "")
    (hfail : svc (mkQueryParams queryText kbId tenantId projectId
      (getFileIds tenantId projectId) (some sessionIdRaw)) = .error e)
    (hinv : isInvalidSessionError e = true)
    (hok : svc (mkQueryParams queryText kbId tenantId projectId
      (getFileIds tenantId projectId) none) = .ok resp)
    (hnodup : (history.map ChatMessage.id).Nodup) :
    (∀ w ∈ (handle_query svc getFileIds history now uidUser uidAi
        userId tenantId queryText projectId sessionIdRaw kbId).rekeyPuts,
      w.sessionId = resp.sessionId ∧
      ∃ m ∈ history, m.sessionId = sessionIdRaw ∧
        w = { m with sessionId := resp.sessionId }) ∧
    (∀ m ∈ history, m.sessionId = sessionIdRaw →
      { m with sessionId := resp.sessionId } ∈
        (handle_query svc getFileIds history now uidUser uidAi
          userId tenantId queryText projectId sessionIdRaw kbId).rekeyPuts) ∧
    (∀ m ∈ history, m.sessionId ≠ sessionIdRaw →
      ∀ w ∈ (handle_query svc getFileIds history now uidUser uidAi
        userId tenantId queryText projectId sessionIdRaw kbId).rekeyPuts,
      w.id ≠ m.id) := by
  have h6 : sessionIdRaw ≠ "" := by
    intro h
    apply h5
    rw [h]
    rfl
  have hok2 : svc { (mkQueryParams queryText kbId tenantId projectId
      (getFileIds tenantId projectId) (some sessionIdRaw)) with
        sessionId := none } = .ok resp := hok
  have hperf := perform_recovered svc
    (mkQueryParams queryText kbId tenantId projectId
      (getFileIds tenantId projectId) (some sessionIdRaw))
    e resp sessionIdRaw rfl hfail hinv hok2
  have hR : (handle_query svc getFileIds history now uidUser uidAi
      userId tenantId queryText projectId sessionIdRaw kbId).rekeyPuts =
      update_chat_history_session_id history sessionIdRaw resp.sessionId := by
    simp only [handle_query]
    simp only [if_neg h1, if_neg h2, if_neg h3, if_neg h4, if_pos h5]
    rw [hperf]
    simp [h6]
  rw [hR]
  have hu := update_rekey_writes history sessionIdRaw resp.sessionId
  exact ⟨hu.1, hu.2.1, fun m hm hne => hu.2.2 hnodup m hm hne⟩

/-- A project-files oracle resolving one file. -/
def demoFiles : String → String → List String := fun _ _ => ["f1"]

/-- A prior history entry filed under the old session id. -/
def demoMsgA : ChatMessage :=
  { id := "m1", sessionId := "abc", tenantId := "t1", userId := "user1",
    projectId := "p1", type := "user", content := "hi", timestamp := 1, sources := none }

/-- A prior history entry of a different session. -/
def demoMsgB : ChatMessage :=
  { id := "m2", sessionId := "zzz", tenantId := "t1", userId := "user1",
    projectId := "p1", type := "ai", content := "yo", timestamp := 2, sources := none }

/-- A concrete two-entry chat history. -/
def demoHistory : List ChatMessage := [demoMsgA, demoMsgB]

/-- Witness for C3 at a concrete recovered query over a two-entry history. -/
theorem C3_rekey_on_recovery_witness :
    (demoHistory.map ChatMessage.id).Nodup ∧
    demoSvc (mkQueryParams "what is it" "kb1" "t1" "p1"
      (demoFiles "t1" "p1") (some "abc")) = .error demoErr ∧
    ((∀ w ∈ (handle_query demoSvc demoFiles demoHistory 9 "u-a" "u-b"
        "user1" "t1" "what is it" "p1" "abc" "kb1").rekeyPuts,
      w.sessionId = demoResp.sessionId ∧
      ∃ m ∈ demoHistory, m.sessionId = "abc" ∧
        w = { m with sessionId := demoResp.sessionId }) ∧
     (∀ m ∈ demoHistory, m.sessionId = "abc" →
      { m with sessionId := demoResp.sessionId } ∈
        (handle_query demoSvc demoFiles demoHistory 9 "u-a" "u-b"
          "user1" "t1" "what is it" "p1" "abc" "kb1").rekeyPuts) ∧
     (∀ m ∈ demoHistory, m.sessionId ≠ "abc" →
      ∀ w ∈ (handle_query demoSvc demoFiles demoHistory 9 "u-a" "u-b"
        "user1" "t1" "what is it" "p1" "abc" "kb1").rekeyPuts,
      w.id ≠ m.id)) :=
  ⟨by decide, rfl,
   C3_rekey_on_recovery demoSvc demoFiles demoHistory 9 "u-a" "u-b"
     "user1" "t1" "what is it" "p1" "abc" "kb1" demoResp demoErr
     (by decide) (by decide) (by decide) (by decide) (by decide)
     rfl (by decide) rfl (by decide)⟩

/-- C6: every successful query (status 200, recovered or not) writes exactly
two chat-history entries sharing the response's session id — a `user` entry
with the query text and an `ai` entry with the generated answer and the
extracted sources when there are any — and the `ai` entry's timestamp is
strictly greater than the `user` entry's. -/
theorem C6_two_ledger_entries
    (svc : RetrieveParams → Except ClientErr RAGResponse)
    (getFileIds : String → String → List String)
    (history : List ChatMessage) (now : Nat) (uidUser uidAi : String)
    (userId tenantId queryText projectId sessionIdRaw kbId : String)
    (hs : (handle_query svc getFileIds history now uidUser uidAi
        userId tenantId queryText projectId sessionIdRaw kbId).status = 200) :
    ∃ r u a, (handle_query svc getFileIds history now uidUser uidAi
        userId tenantId queryText projectId sessionIdRaw kbId).resp = some r ∧
      (handle_query svc getFileIds history now uidUser uidAi
        userId tenantId queryText projectId sessionIdRaw kbId).chatPuts = [u, a] ∧
      u.type = "user" ∧ u.content = queryText ∧ u.sessionId = r.sessionId ∧
      a.type = "ai" ∧ a.content = r.outputText ∧ a.sessionId = r.sessionId ∧
      u.timestamp < a.timestamp ∧
      (extract_sources r = [] → a.sources = none) ∧
      (extract_sources r ≠ [] → a.sources = some (extract_sources r)) := by
  by_cases h1 : queryText = ""
  · simp [handle_query, h1] at hs
  by_cases h2 : kbId = ""
  · simp [handle_query, h1, h2] at hs
  by_cases h3 : projectId = ""
  · simp [handle_query, h1, h2, h3] at hs
  by_cases h4 : (getFileIds tenantId projectId).isEmpty = true
  · simp [handle_query, h1, h2, h3, h4] at hs
  simp only [handle_query, if_neg h1, if_neg h2, if_neg h3, if_neg h4] at hs ⊢
  cases hp : (perform_retrieve_and_generate svc
      (mkQueryParams queryText kbId tenantId projectId
        (getFileIds tenantId projectId)
        (if pyStrip sessionIdRaw ≠ "" then some sessionIdRaw else none))).1 with
  | error e => rw [hp] at hs; simp at hs
  | ok v =>
    obtain ⟨resp, sc⟩ := v
    refine ⟨resp,
      save_chat_message uidUser resp.sessionId userId tenantId projectId
        "user" queryText now none,
      save_chat_message uidAi resp.sessionId userId tenantId projectId
        "ai" resp.outputText (now + 1) (some (extract_sources resp)),
      rfl, rfl, rfl, rfl, rfl, rfl, rfl, rfl, Nat.lt_succ_self now, ?_, ?_⟩
    · intro hemp
      simp [save_chat_message, hemp]
    · intro hne
      simp [save_chat_message, List.isEmpty_iff, hne]

/-- Witness for C6: a concrete successful query writes the two entries. -/
theorem C6_two_ledger_entries_witness :
    (handle_query demoSvc demoFiles demoHistory 5 "u-a" "u-b"
      "user1" "t1" "what is it" "p1" "" "kb1").status = 200 ∧
    (∃ r u a, (handle_query demoSvc demoFiles demoHistory 5 "u-a" "u-b"
        "user1" "t1" "what is it" "p1" "" "kb1").resp = some r ∧
      (handle_query demoSvc demoFiles demoHistory 5 "u-a" "u-b"
        "user1" "t1" "what is it" "p1" "" "kb1").chatPuts = [u, a] ∧
      u.type = "user" ∧ u.content = "what is it" ∧ u.sessionId = r.sessionId ∧
      a.type = "ai" ∧ a.content = r.outputText ∧ a.sessionId = r.sessionId ∧
      u.timestamp < a.timestamp ∧
      (extract_sources r = [] → a.sources = none) ∧
      (extract_sources r ≠ [] → a.sources = some (extract_sources r))) :=
  ⟨by decide,
   C6_two_ledger_entries demoSvc demoFiles demoHistory 5 "u-a" "u-b"
     "user1" "t1" "what is it" "p1" "" "kb1" (by decide)⟩

/-- C4: with a resolvable tenant configuration, ingesting a project's files
writes exactly one FileRecord per file — `documentStatus = ready`,
`createdAt = now`, `ttl = createdAt + filesTTLHours * 3600` using the
retention of the tenant found by its id — and issues exactly one document
submission per file, each carrying the four scoping tags as inline
metadata. -/
theorem C4_ingestion_effects (cfg : Except String (List TenantCfg)) (now : Nat)
    (userId tenantId projectId : String) (files : List FileInfo)
    (tenants : List TenantCfg) (tenant : TenantCfg)
    (hcfg : cfg = .ok tenants)
    (htenant : find_tenant tenantId tenants = some tenant) :
    tenant.tenantCfgId = tenantId ∧
    (ingest_files cfg now userId tenantId projectId files).outcome = .ok () ∧
    (ingest_files cfg now userId tenantId projectId files).records.length
      = files.length ∧
    (∀ r ∈ (ingest_files cfg now userId tenantId projectId files).records,
      r.documentStatus = "ready" ∧ r.createdAt = now ∧
      r.ttl = r.createdAt + tenant.filesTTLHours * 3600 ∧
      r.userId = userId ∧ r.tenantId = tenantId ∧ r.projectId = projectId) ∧
    (ingest_files cfg now userId tenantId projectId files).submissions.length
      = files.length ∧
    (∀ s ∈ (ingest_files cfg now userId tenantId projectId files).submissions,
      s.inlineAttributes =
        [("userId", userId), ("tenantId", tenantId),
         ("projectId", projectId), ("fileId", s.docId)]) ∧
    (∀ f ∈ files,
      mkFileRecordPut f.fileInfoId userId tenantId projectId now
        (now + tenant.filesTTLHours * 3600)
        ∈ (ingest_files cfg now userId tenantId projectId files).records ∧
      mkDocSubmission f userId tenantId projectId
        ∈ (ingest_files cfg now userId tenantId projectId files).submissions) := by
  subst hcfg
  have hid : tenant.tenantCfgId = tenantId := by
    have := List.find?_some htenant
    exact beq_iff_eq.mp this
  have hred : ingest_files (.ok tenants) now userId tenantId projectId files =
      ⟨files.map (fun f => mkFileRecordPut f.fileInfoId userId tenantId projectId now
          (now + tenant.filesTTLHours * 3600)),
       files.map (fun f => mkDocSubmission f userId tenantId projectId),
       .ok ()⟩ := by
    simp [ingest_files, htenant]
  rw [hred]
  refine ⟨hid, rfl, by simp, ?_, by simp, ?_, ?_⟩
  · intro r hr
    simp only [List.mem_map] at hr
    obtain ⟨f, hf, rfl⟩ := hr
    exact ⟨rfl, rfl, rfl, rfl, rfl, rfl⟩
  · intro s hs
    simp only [List.mem_map] at hs
    obtain ⟨f, hf, rfl⟩ := hs
    rfl
  · intro f hf
    exact ⟨List.mem_map_of_mem _ hf, List.mem_map_of_mem _ hf⟩

/-- C7: a missing or malformed tenant configuration — the configuration
failing to parse, or the tenant id absent from it — makes the whole
ingestion batch fail before any FileRecord write or document submission. -/
theorem C7_config_failure_fails_fast (cfg : Except String (List TenantCfg))
    (now : Nat) (userId tenantId projectId : String) (files : List FileInfo) :
    (∀ msg, cfg = .error msg →
      (ingest_files cfg now userId tenantId projectId files).records = [] ∧
      (ingest_files cfg now userId tenantId projectId files).submissions = [] ∧
      (ingest_files cfg now userId tenantId projectId files).outcome = .error msg) ∧
    (∀ tenants, cfg = .ok tenants → find_tenant tenantId tenants = none →
      (ingest_files cfg now userId tenantId projectId files).records = [] ∧
      (ingest_files cfg now userId tenantId projectId files).submissions = [] ∧
      ∃ m, (ingest_files cfg now userId tenantId projectId files).outcome
        = .error m) := by
  constructor
  · intro msg hmsg
    subst hmsg
    exact ⟨rfl, rfl, rfl⟩
  · intro tenants hok hnone
    subst hok
    refine ⟨?_, ?_, ?_⟩ <;> simp [ingest_files, hnone]

/-- C8: a well-formed ingestion request whose project resolves to zero files
(or whose file set cannot be resolved at all) is rejected with a 400 caller
error before any FileRecord write or document submission. -/
theorem C8_zero_files_rejected (kbId userId tenantId projectId : String)
    (projectFiles : Option (List FileInfo)) (cfg : Except String (List TenantCfg))
    (now : Nat)
    (h1 : kbId ≠ "") (h2 : userId ≠ "") (h3 : projectId ≠ "")
    (h4 : projectFiles = none ∨ projectFiles = some []) :
    (check_kb_status_handler kbId userId tenantId projectId projectFiles cfg now).status
      = 400 ∧
    (check_kb_status_handler kbId userId tenantId projectId projectFiles cfg now).records
      = [] ∧
    (check_kb_status_handler kbId userId tenantId projectId projectFiles cfg now).submissions
      = [] := by
  rcases h4 with h4 | h4 <;> subst h4 <;>
    refine ⟨?_, ?_, ?_⟩ <;>
    simp [check_kb_status_handler, h1, h2, h3]

/-- A concrete tenant configuration entry. -/
def demoTenant : TenantCfg := ⟨"t1", 24⟩

/-- A concrete tenant configuration set. -/
def demoTenants : List TenantCfg := [⟨"t0", 1⟩, demoTenant]

/-- Two concrete registered project files. -/
def demoFileList : List FileInfo :=
  [⟨"f1", "docs/a.pdf", "bucket1"⟩, ⟨"f2", "docs/b.pdf", "bucket1"⟩]

/-- Witness for C4 at a concrete two-file ingestion run. -/
theorem C4_ingestion_effects_witness :
    demoTenant.tenantCfgId = "t1" ∧
    (ingest_files (.ok demoTenants) 100 "user1" "t1" "p1" demoFileList).outcome
      = .ok () ∧
    (ingest_files (.ok demoTenants) 100 "user1" "t1" "p1" demoFileList).records.length
      = demoFileList.length ∧
    (∀ r ∈ (ingest_files (.ok demoTenants) 100 "user1" "t1" "p1" demoFileList).records,
      r.documentStatus = "ready" ∧ r.createdAt = 100 ∧
      r.ttl = r.createdAt + demoTenant.filesTTLHours * 3600 ∧
      r.userId = "user1" ∧ r.tenantId = "t1" ∧ r.projectId = "p1") ∧
    (ingest_files (.ok demoTenants) 100 "user1" "t1" "p1" demoFileList).submissions.length
      = demoFileList.length ∧
    (∀ s ∈ (ingest_files (.ok demoTenants) 100 "user1" "t1" "p1" demoFileList).submissions,
      s.inlineAttributes =
        [("userId", "user1"), ("tenantId", "t1"), ("projectId", "p1"),
         ("fileId", s.docId)]) ∧
    (∀ f ∈ demoFileList,
      mkFileRecordPut f.fileInfoId "user1" "t1" "p1" 100
        (100 + demoTenant.filesTTLHours * 3600)
        ∈ (ingest_files (.ok demoTenants) 100 "user1" "t1" "p1" demoFileList).records ∧
      mkDocSubmission f "user1" "t1" "p1"
        ∈ (ingest_files (.ok demoTenants) 100 "user1" "t1" "p1" demoFileList).submissions) :=
  C4_ingestion_effects (.ok demoTenants) 100 "user1" "t1" "p1" demoFileList
    demoTenants demoTenant rfl (by decide)

/-- Witness for C7 on both failure shapes: an unparseable configuration and
a tenant id absent from a parsed configuration. -/
theorem C7_config_failure_fails_fast_witness :
    ((ingest_files (.error "bad TENANTS") 5 "user1" "t1" "p1" demoFileList).records = [] ∧
     (ingest_files (.error "bad TENANTS") 5 "user1" "t1" "p1" demoFileList).submissions = [] ∧
     (ingest_files (.error "bad TENANTS") 5 "user1" "t1" "p1" demoFileList).outcome
       = .error "bad TENANTS") ∧
    ((ingest_files (.ok demoTenants) 5 "user1" "t9" "p1" demoFileList).records = [] ∧
     (ingest_files (.ok demoTenants) 5 "user1" "t9" "p1" demoFileList).submissions = [] ∧
     ∃ m, (ingest_files (.ok demoTenants) 5 "user1" "t9" "p1" demoFileList).outcome
       = .error m) :=
  ⟨(C7_config_failure_fails_fast (.error "bad TENANTS") 5 "user1" "t1" "p1"
      demoFileList).1 "bad TENANTS" rfl,
   (C7_config_failure_fails_fast (.ok demoTenants) 5 "user1" "t9" "p1"
      demoFileList).2 demoTenants rfl (by decide)⟩

/-- Witness for C8 at a concrete zero-file request. -/
theorem C8_zero_files_rejected_witness :
    (check_kb_status_handler "kb1" "user1" "t1" "p1" (some [])
      (.ok demoTenants) 5).status = 400 ∧
    (check_kb_status_handler "kb1" "user1" "t1" "p1" (some [])
      (.ok demoTenants) 5).records = [] ∧
    (check_kb_status_handler "kb1" "user1" "t1" "p1" (some [])
      (.ok demoTenants) 5).submissions = [] :=
  C8_zero_files_rejected "kb1" "user1" "t1" "p1" (some []) (.ok demoTenants) 5
    (by decide) (by decide) (by decide) (Or.inr rfl)

/-- One cleanup loop iteration, characterised: a qualifying record appends
its file id to the attempted deletions and bumps exactly one counter
according to the deletion outcome; any other record leaves the accumulator
untouched. -/
theorem cleanupStep_eq (delOk : String → Bool) (acc : List String × Nat × Nat)
    (r : StreamRecord) :
    cleanupStep delOk acc r =
      if qualifyingRemoval r then
        if delOk (optStr r.keyId) then
          (acc.1 ++ [optStr r.keyId], acc.2.1 + 1, acc.2.2)
        else (acc.1 ++ [optStr r.keyId], acc.2.1, acc.2.2 + 1)
      else acc := by
  obtain ⟨ds, p, e⟩ := acc
  unfold cleanupStep qualifyingRemoval isTTLRemoval
  by_cases h1 : r.eventName == "REMOVE" <;>
  by_cases h2 : (r.userIdentityType == some "Service" &&
    r.userIdentityPrincipal == some "dynamodb.amazonaws.com") = true <;>
  by_cases h3 : optStr r.keyId == "" <;>
  by_cases h4 : optStr r.keyTenantId == "" <;>
  by_cases h5 : delOk (optStr r.keyId) <;>
  simp [h1, h2, h3, h4, h5, Bool.and_assoc]

/-- The lengths of a filter and of the complementary filter sum to the
length of the list. -/
theorem filter_split_length {α : Type} (p : α → Bool) (l : List α) :
    (l.filter p).length + (l.filter (fun a => !p a)).length = l.length := by
  induction l with
  | nil => rfl
  | cons a l ih =>
    by_cases h : p a <;> simp [List.filter_cons, h, ← ih] <;> omega

/-- The cleanup loop over a batch, characterised: the attempted deletions
are the file ids of exactly the qualifying records, and the two counters
count the qualifying records whose deletion succeeded and failed. -/
theorem cleanup_foldl_spec (delOk : String → Bool) (records : List StreamRecord)
    (ds : List String) (p e : Nat) :
    records.foldl (cleanupStep delOk) (ds, p, e) =
      (ds ++ (records.filter qualifyingRemoval).map (fun r => optStr r.keyId),
       p + ((records.filter qualifyingRemoval).filter
          (fun r => delOk (optStr r.keyId))).length,
       e + ((records.filter qualifyingRemoval).filter
          (fun r => !delOk (optStr r.keyId))).length) := by
  induction records generalizing ds p e with
  | nil => simp
  | cons r rs ih =>
    rw [List.foldl_cons, cleanupStep_eq]
    by_cases hq : qualifyingRemoval r
    · by_cases hd : delOk (optStr r.keyId)
      · rw [if_pos hq, if_pos hd, ih]
        simp [List.filter_cons, hq, hd]
        omega
      · rw [if_pos hq, if_neg hd, ih]
        simp [List.filter_cons, hq, hd]
        omega
    · rw [if_neg hq, ih]
      simp [List.filter_cons, hq]

/-- A configured cleanup run, characterised in closed form: a 200 status,
one attempted deletion per qualifying record, and counters splitting the
qualifying records by deletion outcome. -/
theorem cleanup_handler_eq (kbId dsId tableName : String) (delOk : String → Bool)
    (records : List StreamRecord)
    (h1 : kbId ≠ "") (h2 : dsId ≠ "") (h3 : tableName ≠ "") :
    cleanup_handler kbId dsId tableName delOk records =
      ⟨200,
       (records.filter qualifyingRemoval).map (fun r => optStr r.keyId),
       ((records.filter qualifyingRemoval).filter
         (fun r => delOk (optStr r.keyId))).length,
       ((records.filter qualifyingRemoval).filter
         (fun r => !delOk (optStr r.keyId))).length⟩ := by
  by_cases hrec : records.isEmpty
  · have hnil : records = [] := List.isEmpty_iff.mp hrec
    subst hnil
    simp [cleanup_handler, h1, h2, h3]
  · unfold cleanup_handler
    rw [if_neg h1, if_neg h2, if_neg h3, if_neg hrec, cleanup_foldl_spec]
    simp

/-- C5: for every configured run over a change-notification batch, the
handler attempts exactly one knowledge-base document deletion per
system-initiated removal carrying a truthy file id and tenant id — and none
for caller-initiated removals or non-removal events — independently of
which deletions fail (a failure never prevents the remaining attempts); it
always returns a 200 with aggregate processed and errored counts that sum
to the number of qualifying records, so a batch with zero qualifying
records is a normal success. -/
theorem C5_cleanup_batch (kbId dsId tableName : String) (delOk : String → Bool)
    (records : List StreamRecord)
    (h1 : kbId ≠ "") (h2 : dsId ≠ "") (h3 : tableName ≠ "") :
    (cleanup_handler kbId dsId tableName delOk records).status = 200 ∧
    (cleanup_handler kbId dsId tableName delOk records).deletions =
      (records.filter qualifyingRemoval).map (fun r => optStr r.keyId) ∧
    (∀ delOk2 : String → Bool,
      (cleanup_handler kbId dsId tableName delOk2 records).deletions =
      (cleanup_handler kbId dsId tableName delOk records).deletions) ∧
    (cleanup_handler kbId dsId tableName delOk records).processed =
      ((records.filter qualifyingRemoval).filter
        (fun r => delOk (optStr r.keyId))).length ∧
    (cleanup_handler kbId dsId tableName delOk records).errored =
      ((records.filter qualifyingRemoval).filter
        (fun r => !delOk (optStr r.keyId))).length ∧
    (cleanup_handler kbId dsId tableName delOk records).processed +
      (cleanup_handler kbId dsId tableName delOk records).errored =
      (records.filter qualifyingRemoval).length := by
  have hEq := cleanup_handler_eq kbId dsId tableName delOk records h1 h2 h3
  refine ⟨?_, ?_, ?_, ?_, ?_, ?_⟩
  · rw [hEq]
  · rw [hEq]
  · intro d2
    rw [cleanup_handler_eq kbId dsId tableName d2 records h1 h2 h3, hEq]
  · rw [hEq]
  · rw [hEq]
  · rw [hEq]
    exact filter_split_length (fun r => delOk (optStr r.keyId))
      (records.filter qualifyingRemoval)

/-- A system-initiated (TTL) removal record for file `f1`. -/
def demoRecTTL1 : StreamRecord :=
  ⟨"REMOVE", some "Service", some "dynamodb.amazonaws.com",
   some "f1", some "t1", some "p1"⟩

/-- A caller-initiated removal (no service identity marker). -/
def demoRecUser : StreamRecord :=
  ⟨"REMOVE", none, none, some "f9", some "t1", none⟩

/-- A non-removal stream event. -/
def demoRecInsert : StreamRecord :=
  ⟨"INSERT", none, none, some "f8", some "t1", none⟩

/-- A system-initiated removal for file `f2` (whose deletion will fail). -/
def demoRecTTL2 : StreamRecord :=
  ⟨"REMOVE", some "Service", some "dynamodb.amazonaws.com",
   some "f2", some "t1", none⟩

/-- A system-initiated removal missing the tenant id key. -/
def demoRecNoTenant : StreamRecord :=
  ⟨"REMOVE", some "Service", some "dynamodb.amazonaws.com",
   some "f3", none, none⟩

/-- A mixed change-notification batch. -/
def demoRecords : List StreamRecord :=
  [demoRecTTL1, demoRecUser, demoRecInsert, demoRecTTL2, demoRecNoTenant]

/-- A deletion oracle failing exactly on file `f2`. -/
def demoDelOk : String → Bool := fun s => !(s == "f2")

/-- Witness for C5 on the mixed batch with one failing deletion. -/
theorem C5_cleanup_batch_witness :
    (cleanup_handler "kb1" "ds1" "tbl" demoDelOk demoRecords).status = 200 ∧
    (cleanup_handler "kb1" "ds1" "tbl" demoDelOk demoRecords).deletions =
      (demoRecords.filter qualifyingRemoval).map (fun r => optStr r.keyId) ∧
    (cleanup_handler "kb1" "ds1" "tbl" demoDelOk demoRecords).processed =
      ((demoRecords.filter qualifyingRemoval).filter
        (fun r => demoDelOk (optStr r.keyId))).length ∧
    (cleanup_handler "kb1" "ds1" "tbl" demoDelOk demoRecords).errored =
      ((demoRecords.filter qualifyingRemoval).filter
        (fun r => !demoDelOk (optStr r.keyId))).length ∧
    (cleanup_handler "kb1" "ds1" "tbl" demoDelOk demoRecords).processed +
      (cleanup_handler "kb1" "ds1" "tbl" demoDelOk demoRecords).errored =
      (demoRecords.filter qualifyingRemoval).length := by
  have T := C5_cleanup_batch "kb1" "ds1" "tbl" demoDelOk demoRecords
    (by decide) (by decide) (by decide)
  exact ⟨T.1, T.2.1, T.2.2.2.1, T.2.2.2.2.1, T.2.2.2.2.2⟩

/-- Modelled from the spec: the chat-history table's secondary index and the
store's page-delivery order are defined by infrastructure code outside the
Lambda sources; the specification's document-store contract has the
paginated (tenant, user) query hand back the partition in ascending
`timestamp` order — each page sorted, and every entry of an earlier page no
later than every entry of a later page. -/
abbrev storeDeliversAscending (pages : List (List ChatMessage)) : Prop :=
  (∀ page ∈ pages, List.Sorted (fun a b => a.timestamp ≤ b.timestamp) page) ∧
  List.Pairwise (fun p q => ∀ a ∈ p, ∀ b ∈ q, a.timestamp ≤ b.timestamp) pages

/-- An entry is in the drained list iff it is on some page. -/
theorem mem_drainPages {m : ChatMessage} {pages : List (List ChatMessage)} :
    m ∈ drainPages pages ↔ ∃ page ∈ pages, m ∈ page := by
  induction pages with
  | nil => simp [drainPages]
  | cons pg rest ih => simp [drainPages, List.mem_append, ih]

/-- The drained list carries every entry of every page, counted once. -/
theorem drainPages_length (pages : List (List ChatMessage)) :
    (drainPages pages).length = (pages.map List.length).sum := by
  induction pages with
  | nil => rfl
  | cons pg rest ih => simp [drainPages, ih]

/-- Merging pages delivered in ascending order yields an ascending list. -/
theorem drainPages_sorted (pages : List (List ChatMessage))
    (hasc : storeDeliversAscending pages) :
    List.Sorted (fun a b => a.timestamp ≤ b.timestamp) (drainPages pages) := by
  induction pages with
  | nil => simp [drainPages]
  | cons pg rest ih =>
    obtain ⟨hpg, hpair⟩ := hasc
    rw [List.pairwise_cons] at hpair
    have ih2 := ih ⟨fun q hq => hpg q (List.mem_cons_of_mem _ hq), hpair.2⟩
    rw [drainPages]
    unfold List.Sorted at ih2 ⊢
    rw [List.pairwise_append]
    exact ⟨hpg pg (List.mem_cons_self _ _), ih2,
      fun a ha b hb => by
        obtain ⟨q, hq, hbq⟩ := mem_drainPages.mp hb
        exact hpair.1 q hq a ha b hbq⟩

/-- C9: the retrieve-all operation of the chat history drains and merges
every page of the paginated (tenant, user) query before returning — the
result contains every entry of every page, exactly once by count — and,
with the store delivering pages in ascending timestamp order, the returned
list is in ascending timestamp order. -/
theorem C9_history_drained_ascending (pages : List (List ChatMessage))
    (hasc : storeDeliversAscending pages) :
    (∀ page ∈ pages, ∀ m ∈ page,
      m ∈ get_chat_history_by_tenant_user false pages) ∧
    (get_chat_history_by_tenant_user false pages).length =
      (pages.map List.length).sum ∧
    List.Sorted (fun a b => a.timestamp ≤ b.timestamp)
      (get_chat_history_by_tenant_user false pages) := by
  have hred : get_chat_history_by_tenant_user false pages = drainPages pages := rfl
  rw [hred]
  exact ⟨fun page hpage m hm => mem_drainPages.mpr ⟨page, hpage, hm⟩,
    drainPages_length pages, drainPages_sorted pages hasc⟩

/-- Two sorted pages of the demo history. -/
def demoPages : List (List ChatMessage) := [[demoMsgA], [demoMsgB]]

/-- Witness for C9 on a concrete two-page partition. -/
theorem C9_history_drained_ascending_witness :
    (∀ page ∈ demoPages, ∀ m ∈ page,
      m ∈ get_chat_history_by_tenant_user false demoPages) ∧
    (get_chat_history_by_tenant_user false demoPages).length =
      (demoPages.map List.length).sum ∧
    List.Sorted (fun a b => a.timestamp ≤ b.timestamp)
      (get_chat_history_by_tenant_user false demoPages) :=
  C9_history_drained_ascending demoPages ⟨by decide, by decide⟩

/-- C10: chat-history retrieval never raises — a failing store query yields
the empty list — and deleting the resulting empty message set succeeds, so
the DELETE history endpoint returns the 200 deleted-successfully
confirmation even though retrieval failed and zero deletions were issued. -/
theorem C10_delete_reports_success_on_failed_retrieval
    (projectId : String) (pages : List (List ChatMessage))
    (delOk : String → String → Bool) (hpid : projectId ≠ "") :
    get_chat_history_by_tenant_user true pages = [] ∧
    delete_chat_session true pages delOk = (true, []) ∧
    handle_delete_session projectId true pages delOk =
      ⟨200, "Project " ++ projectId ++ " chat history deleted successfully", []⟩ := by
  refine ⟨rfl, rfl, ?_⟩
  unfold handle_delete_session
  rw [if_neg hpid]
  rfl

/-- Witness for C10 at a concrete project id and failing retrieval. -/
theorem C10_delete_reports_success_on_failed_retrieval_witness :
    get_chat_history_by_tenant_user true demoPages = [] ∧
    delete_chat_session true demoPages (fun _ _ => true) = (true, []) ∧
    handle_delete_session "p1" true demoPages (fun _ _ => true) =
      ⟨200, "Project " ++ "p1" ++ " chat history deleted successfully", []⟩ :=
  C10_delete_reports_success_on_failed_retrieval "p1" demoPages
    (fun _ _ => true) (by decide)
